import Mathlib

/-!
Verification of the rabbitmq-notification core against its natural-language
specification.  The definitions below are a shallow embedding of the C++
sources: `common.cpp` (Connection / Channel), `utils.cpp` (error helpers),
`message_broker.hpp` (the `gs::MessageBroker` interface, in particular
`Response::ok`), and the `MessageBroker` implementation file
(`MessageBroker::send`, `MessageBroker::listen`, `QueryInterface`).
Machine integers are modelled as `Nat` with explicit `% 2^w` where the C++
code performs a narrowing conversion or overflowing arithmetic.
-/

/-! ## Channel id allocation (`common.cpp`)

`common.cpp` line 8 declares `static uint16_t serial = 0;` and
`Channel::Channel` (line 87) assigns `this->id = ++serial;`.
`serial_after n` is the value of `serial` after `n` channel constructions:
`++serial` increments a `uint16_t`, i.e. adds 1 modulo `2^16`.
Nothing in `Channel::~Channel` or anywhere else ever writes `serial`,
so the id handed to the `n`-th constructed channel (across all connections,
the counter being a file-scope static) is exactly `serial_after n`. -/
def serial_after : Nat → Nat
  | 0 => 0
  | n + 1 => (serial_after n + 1) % 65536

/-- Id assigned by `Channel::Channel` to the `n`-th channel constructed in the
process (counting from `n = 1`): the value of `++serial` at that construction. -/
def chanId (n : Nat) : Nat := serial_after n

theorem serial_after_eq (n : Nat) : serial_after n = n % 65536 := by
  induction n with
  | zero => rfl
  | succ n ih =>
    show (serial_after n + 1) % 65536 = (n + 1) % 65536
    rw [ih]
    omega

/-! ## `die_on_error` (`utils.cpp` lines 26–31)

`die_on_error(int x, char const *context)` throws a `std::runtime_error`
mentioning `context` exactly when `x < 0`, and otherwise returns normally.
The thrown exception is modelled as `Except.error` carrying the context. -/
def die_on_error (x : Int) (context : String) : Except String Unit :=
  if x < 0 then .error context else .ok ()

/-! ## `Channel::ack` / `Channel::nack` (`common.cpp` lines 211–227)

Both take the raw status returned by the transport
(`amqp_basic_ack` / `amqp_basic_nack`), pass it through `die_on_error`,
and return it unchanged.  The transport's return value is an input of the
model (`status`); `delivery_tag`, `multiple`, `requeue` are forwarded to the
transport and do not influence the error handling. -/
def Channel.ack (delivery_tag : Nat) (multiple : Bool) (status : Int) :
    Except String Int :=
  match die_on_error status "basic.ack" with
  | .error e => .error e
  | .ok _ => .ok status

def Channel.nack (delivery_tag : Nat) (multiple : Bool) (requeue : Bool)
    (status : Int) : Except String Int :=
  match die_on_error status "basic.nack" with
  | .error e => .error e
  | .ok _ => .ok status

/-! ## `Channel::qos` (`common.cpp` lines 202–209)

`Channel::qos(uint32_t prefetch_size, uint16_t prefetch_count, bool global)`
calls `amqp_basic_qos(connection->state, id, prefetch_count, prefetch_size,
global)`.  The transport function's signature is
`amqp_basic_qos(state, channel, uint32_t prefetch_size,
uint16_t prefetch_count, amqp_boolean_t global)`, so the code passes
`prefetch_count` in the transport's prefetch-size position and
`prefetch_size` — narrowed to `uint16_t`, i.e. `% 2^16` — in the transport's
prefetch-count position.  `BasicQosArgs` records the arguments the transport
receives. -/
structure BasicQosArgs where
  channel : Nat
  prefetch_size : Nat
  prefetch_count : Nat
  globalFlag : Bool
  deriving DecidableEq, Repr

/-- Arguments `Channel::qos` hands to `amqp_basic_qos`, as a function of the
channel id and the caller's `prefetch_size` (a `uint32_t`) and
`prefetch_count` (a `uint16_t`). -/
def Channel.qosArgs (id : Nat) (prefetch_size : Nat) (prefetch_count : Nat)
    (globalFlag : Bool) : BasicQosArgs :=
  { channel := id
    prefetch_size := prefetch_count % 4294967296
    prefetch_count := prefetch_size % 65536
    globalFlag := globalFlag }

/-! ## The dispatch loop (`common.cpp` lines 45–66)

`Connection::Connection` starts a worker thread running, while `run` holds:
under the connection lock, if the channel registry `pool` is non-empty,
poll the transport with `amqp_consume_message` and

  * on a non-normal reply (`AMQP_RESPONSE_NORMAL != res.reply_type`)
    `continue`;
  * on a normal reply execute `pool[envelope.channel]->push_envelope(envelope)`.

`pool` is the registry mapping channel id to a raw `Channel*`
(`connection->pool[id] = this;` in `Channel::consume`,
`connection->pool.erase(id)`, `pool.clear()`), modelled as an association
list from channel id to an optional channel queue, `none` standing for a
null `Channel*`.  `pool[envelope.channel]` is `std::map::operator[]`: if the
key is absent it value-initializes the mapped `Channel*` — a null pointer —
inserts it, and returns it; the subsequent `->push_envelope` then
dereferences that null pointer.  `push_envelope` appends the envelope to the
channel's inbound queue (its body lives in the `common.h` header; the spec
describes the queue as fed in arrival order by the dispatch loop). -/
structure Envelope where
  channel : Nat
  delivery_tag : Nat
  body : List Nat
  deriving DecidableEq, Repr

/-- The connection's channel registry: channel id → `Channel*`
(`none` = null pointer), with the queue contents standing for the pointed-to
channel's inbound envelope queue. -/
abbrev Pool := List (Nat × Option (List Envelope))

/-- `std::map::operator[]`: return the mapped value for the key, inserting a
value-initialized (null) entry first when the key is absent.  Returns the
possibly-extended map together with the mapped value. -/
def mapIndex (p : Pool) (k : Nat) : Pool × Option (List Envelope) :=
  match p.lookup k with
  | some v => (p, v)
  | none => (p ++ [(k, none)], none)

/-- Replace the value mapped to key `k` (used to model `push_envelope`
mutating the channel's queue through the registry's pointer). -/
def setPool (p : Pool) (k : Nat) (v : Option (List Envelope)) : Pool :=
  p.map fun kv => if kv.1 = k then (k, v) else kv

/-- Result of `amqp_consume_message` as seen by the loop body. -/
inductive PollResult where
  | notNormal
  | normal (env : Envelope)
  deriving DecidableEq, Repr

/-- Observable outcome of one iteration of the dispatch loop:
`idle` — the registry was empty, the transport was not polled at all;
`retry` — polled, non-normal result, `continue`;
`routed` — polled, envelope appended to the registered channel's queue;
`nullDeref` — polled, no channel registered under the envelope's channel id
(or a null entry already present): `operator[]` leaves the registry as
recorded and `push_envelope` is invoked through a null pointer (undefined
behavior). -/
inductive DispatchOutcome where
  | idle
  | retry
  | routed (pool : Pool)
  | nullDeref (pool : Pool)
  deriving DecidableEq, Repr

/-- One iteration of `Connection`'s dispatcher loop body
(`common.cpp` lines 46–64). -/
def dispatchStep (pool : Pool) (poll : PollResult) : DispatchOutcome :=
  if pool.isEmpty then .idle
  else
    match poll with
    | .notNormal => .retry
    | .normal env =>
      match mapIndex pool env.channel with
      | (p1, none) => .nullDeref p1
      | (p1, some q) => .routed (setPool p1 env.channel (some (q ++ [env])))

/-- `n` iterations of the dispatcher loop.  The transport's successive poll
results are the list `polls`; an iteration consumes one of them exactly when
it polls (registry non-empty).  Returns the final registry and the poll
results not yet consumed.  On a null-pointer dereference the execution is
undefined and the model stops. -/
def dispatchRun : Nat → Pool → List PollResult → Pool × List PollResult
  | 0, pool, polls => (pool, polls)
  | n + 1, pool, polls =>
    if pool.isEmpty then dispatchRun n pool polls
    else
      match polls with
      | [] => (pool, [])
      | poll :: rest =>
        match dispatchStep pool poll with
        | .idle => dispatchRun n pool rest
        | .retry => dispatchRun n pool rest
        | .routed p1 => dispatchRun n p1 rest
        | .nullDeref p1 => (p1, rest)

/-! ## The RPC client wait loop (`MessageBroker::send`, implementation file
lines 108–201)

`send` declares a private reply queue, publishes the request with
`props.correlation_id = amqp_cstring_bytes("1")` (line 91), starts consuming
the reply queue, and then drives frame reassembly by hand:

```
for (;;) {
  result = amqp_simple_wait_frame(conn, &frame);   // blocking, no timeout
  if (result < 0) break;                            // → returns null response
  if (frame.frame_type != AMQP_FRAME_METHOD) continue;
  if (frame.payload.method.id != AMQP_BASIC_DELIVER_METHOD) continue;
  result = amqp_simple_wait_frame(conn, &frame);
  if (result < 0) break;
  if (frame.frame_type != AMQP_FRAME_HEADER) abort();
  body_target = frame.payload.properties.body_size; body_received = 0;
  while (body_received < body_target) {
    result = amqp_simple_wait_frame(conn, &frame);
    if (result < 0) break;                          // then the != check breaks
    if (frame.frame_type != AMQP_FRAME_BODY) abort();
    body_received += frame.payload.body_fragment.len;
    assert(body_received <= body_target);
  }
  if (body_received != body_target) break;          // → returns null response
  json_str = strdup(frame.payload.body_fragment.bytes);  // LAST frame only
  response = make_shared<Response>(json_str);
  break;
}
```

A frame is modelled by its `frame_type` and the payload fields the loop
reads; the header frame additionally records the delivery's
`correlation_id` property (present on the wire; the code never reads it)
so that the claims can refer to it.  The sequence of outcomes of the
successive `amqp_simple_wait_frame` calls is the model's input list:
`.err` is a negative result, and exhausting the list means the blocking
`amqp_simple_wait_frame` never returns (the call blocks forever). -/

/-- Correlation id the request is published with
(`props.correlation_id = amqp_cstring_bytes("1")`, line 91). -/
def requestCorrelationId : String := "1"

/-- A frame as seen by the loop: constructor = `frame.frame_type`,
arguments = the payload fields read by the loop (plus the header's
correlation-id property, which the loop ignores). -/
inductive Frame where
  | methodFrame (methodId : Nat)
  | headerFrame (correlation_id : Option String) (body_size : Nat)
  | bodyFrame (fragment : List Nat)
  | heartbeatFrame
  deriving DecidableEq, Repr

/-- `AMQP_BASIC_DELIVER_METHOD` (0x003C003C). -/
def AMQP_BASIC_DELIVER_METHOD : Nat := 0x003C003C

/-- One outcome of `amqp_simple_wait_frame`: a frame, or a negative result. -/
inductive WaitResult where
  | ok (f : Frame)
  | err
  deriving DecidableEq, Repr

/-- The delivery from which `send` built the returned `Response`:
the correlation-id property carried by its header frame, the body fragments
received (in arrival order), and the bytes the `Response` is actually
constructed from — the code's `strdup(frame.payload.body_fragment.bytes)`,
i.e. the last body fragment, or unspecified bytes re-read from the header
frame's union when the declared body size is zero (`none`). -/
structure AcceptedReply where
  correlation_id : Option String
  fragments : List (List Nat)
  responseBody : Option (List Nat)
  deriving DecidableEq, Repr

/-- Result of the wait loop: a constructed `Response`, the null response
(`break` on a failed wait or a short body), a call to `abort()`, or a wait
that never returns because no further frame ever arrives. -/
inductive SendResult where
  | response (r : AcceptedReply)
  | nullResponse
  | aborted
  | blocked
  deriving DecidableEq, Repr

/-- The inner `while (body_received < body_target)` loop followed by the
`if (body_received != body_target) break;` check and the construction of the
`Response`.  `received` and `frags` accumulate `body_received` and the
fragments seen so far. -/
def recvBody (correlation_id : Option String) (body_target : Nat)
    (received : Nat) (frags : List (List Nat)) (events : List WaitResult) :
    SendResult :=
  if received < body_target then
    match events with
    | [] => .blocked
    | .err :: _ => .nullResponse
    | .ok (.bodyFrame b) :: rest =>
      if body_target < received + b.length then .aborted
      else recvBody correlation_id body_target (received + b.length)
        (frags ++ [b]) rest
    | .ok _ :: _ => .aborted
  else
    .response ⟨correlation_id, frags, frags.getLast?⟩
termination_by structural events

/-- The outer `for (;;)` reassembly loop of `MessageBroker::send`. -/
def sendWait : List WaitResult → SendResult
  | [] => .blocked
  | .err :: _ => .nullResponse
  | .ok (.methodFrame mid) :: rest =>
    if mid = AMQP_BASIC_DELIVER_METHOD then
      match rest with
      | [] => .blocked
      | .err :: _ => .nullResponse
      | .ok (.headerFrame cid sz) :: rest2 => recvBody cid sz 0 [] rest2
      | .ok _ :: _ => .aborted
    else sendWait rest
  | .ok _ :: rest => sendWait rest

/-! ## The RPC server reply step (`MessageBroker::listen`, implementation
file lines 277–290) and the query model (`QueryInterface`)

For each consumed request the serve loop builds
`Request request(envelope.message.body.bytes)`, a default-constructed
`Response response`, and runs

```
if (!callback(request, response)) {
  response.set_type(MessageBroker::QueryInterface::QUERY_ERROR);
}
```

before publishing `response.json_str()` to the request's `reply_to` queue
with the inbound `correlation_id` copied verbatim.  `QueryInterface`
(base of `Request`/`Response`) is an `{id, type, body}` triplet serialized
as JSON; `QueryInterface(const char *json_str)` parses the triplet back, so
the client-side `Response` built from the published reply carries the
published `type` tag. -/

/-- `MessageBroker::QueryInterface::QUERY_ERROR` (= `"error"`). -/
def QUERY_ERROR : String := "error"

/-- `MessageBroker::QueryInterface::QUERY_RESPONSE` (= `"response"`). -/
def QUERY_RESPONSE : String := "response"

/-- The `{_id, _type, _body}` triplet held by `QueryInterface` and carried by
its JSON serialization (fields renamed without the underscore). -/
structure QueryInterface where
  id : Nat
  type : String
  body : String
  deriving DecidableEq, Repr

/-- `QueryInterface::set_type`. -/
def QueryInterface.set_type (q : QueryInterface) (t : String) :
    QueryInterface :=
  { q with type := t }

/-- The reply the serve loop publishes for one request: the user handler is
modelled as a function from the request to the final state of the mutable
`response` argument together with its boolean result; a `false` result makes
the loop force the type tag to `QUERY_ERROR`
(implementation file lines 280–282). -/
def listenReply (callback : QueryInterface → QueryInterface × Bool)
    (request : QueryInterface) : QueryInterface :=
  let r := callback request
  if r.2 then r.1 else QueryInterface.set_type r.1 QUERY_ERROR

/-! ## `Response::ok` (`message_broker.hpp` lines 14–29 and 422)

`gs::amqp::AmqpProperties` is a bag of thirteen `std::optional` fields and
`MessageBroker::Response::ok` is
`properties().type != MESSAGE_TYPE_ERROR` — a `std::optional<std::string>`
compared against the `"error"` constant, which is `true` when the optional
is empty and otherwise compares the contained string. -/
structure AmqpProperties where
  content_type : Option String := none
  content_encoding : Option String := none
  delivery_mode : Option Nat := none
  priority : Option Nat := none
  correlation_id : Option String := none
  reply_to : Option String := none
  expiration : Option String := none
  message_id : Option String := none
  timestamp : Option Nat := none
  type : Option String := none
  user_id : Option String := none
  app_id : Option String := none
  cluster_id : Option String := none
  deriving DecidableEq, Repr

/-- `MessageBroker::MESSAGE_TYPE_ERROR` (= `"error"`, the error type tag). -/
def MESSAGE_TYPE_ERROR : String := "error"

/-- `MessageBroker::Response::ok` (`message_broker.hpp` line 422). -/
def Response.ok (properties : AmqpProperties) : Bool :=
  properties.type ≠ some MESSAGE_TYPE_ERROR

/-- Properties of the client-side `Response` decoded from a published reply:
the reply's JSON `type` field becomes the response's type tag
(`QueryInterface(const char*)` reads the `"type"` member). -/
def clientResponseProps (reply : QueryInterface) : AmqpProperties :=
  { type := some reply.type }

/-! ## Claims -/

/-- C1: the spec requires the assembled reply to be accepted only when its
correlation-id property equals the correlation id published with the request
(`"1"`), mismatched replies being skipped.  The code never reads the header
frame's correlation id: this theorem evaluates the wait loop on a frame
sequence whose single fully assembled delivery carries correlation id `"2"`
and shows that `send` returns a `Response` built from that foreign delivery
anyway. -/
theorem send_accepts_foreign_correlation_id :
    sendWait [.ok (.methodFrame AMQP_BASIC_DELIVER_METHOD),
      .ok (.headerFrame (some "2") 2), .ok (.bodyFrame [97, 98])] =
      .response ⟨some "2", [[97, 98]], some [97, 98]⟩ ∧
    some "2" ≠ some requestCorrelationId := by
  exact ⟨rfl, by decide⟩

/-- C2: the spec requires the whole frame-reassembly wait to be bounded by a
caller-supplied timeout, returning the empty result on expiry.
`MessageBroker::send` takes no timeout and waits with the blocking
`amqp_simple_wait_frame`: when no further frame ever arrives the call never
returns (`blocked`), for an empty inbound sequence as well as after any
number `n` of non-delivery frames. -/
theorem send_wait_has_no_timeout :
    sendWait [] = .blocked ∧
    ∀ n : Nat,
      sendWait (List.replicate n (.ok .heartbeatFrame)) = .blocked := by
  refine ⟨rfl, ?_⟩
  intro n
  induction n with
  | zero => rfl
  | succ n ih => simpa [List.replicate, sendWait] using ih

/-- C3: the spec says a delivery whose channel id has no registered `Channel`
is discarded with no observable effect.  Evaluating the dispatch iteration on
a registry holding only channel 1 and a delivery for channel 2 shows the code
instead extends the registry with a null entry for id 2
(`std::map::operator[]`) and dereferences that null pointer — the registry is
changed and the behavior is undefined, not a discard. -/
theorem dispatch_unregistered_channel_null_deref :
    dispatchStep [(1, some [])] (.normal ⟨2, 7, [1]⟩) =
      .nullDeref [(1, some []), (2, none)] ∧
    ([(1, some []), (2, none)] : Pool) ≠ [(1, some [])] := by
  exact ⟨rfl, by decide⟩

/-- C4: the spec says that once the accumulated byte count reaches the
declared length, the `Response` is built from the full assembled body — the
in-order concatenation of all body fragments.  Evaluating the wait loop on a
delivery declaring 4 body bytes split across two body frames `[97, 98]` and
`[99, 100]` shows the code builds the `Response` from the last fragment only
(`strdup(frame.payload.body_fragment.bytes)`), not from the concatenation. -/
theorem send_response_uses_last_fragment_only :
    sendWait [.ok (.methodFrame AMQP_BASIC_DELIVER_METHOD),
      .ok (.headerFrame (some "1") 4), .ok (.bodyFrame [97, 98]),
      .ok (.bodyFrame [99, 100])] =
      .response ⟨some "1", [[97, 98], [99, 100]], some [99, 100]⟩ ∧
    List.flatten [[97, 98], [99, 100]] = [97, 98, 99, 100] ∧
    some (List.flatten [[97, 98], [99, 100]]) ≠ some [99, 100] := by
  exact ⟨rfl, rfl, by decide⟩

/-- C5 (counterexample): channel ids are claimed pairwise distinct among
alive channels at every point of every execution.  The id counter is a
16-bit `++serial` that no destructor ever rolls back, so in an execution
that constructs 65537 channels and destroys none, the 1st and the 65537th
channel are simultaneously alive and hold the same id: the claim as stated
is false. -/
theorem chanId_wraparound_counterexample :
    chanId 65537 = chanId 1 ∧ (65537 : Nat) ≠ 1 := by
  refine ⟨?_, by decide⟩
  rw [chanId, chanId, serial_after_eq, serial_after_eq]

/-- C5 (amended): channel ids of currently-alive channels are pairwise
distinct provided fewer than 2^16 channel constructions have occurred in the
execution: constructions `i` and `j` with `0 < i < j < 65536` receive
distinct ids. -/
theorem chanId_distinct_before_wraparound (i j : Nat) (hi : 0 < i)
    (hij : i < j) (hj : j < 65536) : chanId i ≠ chanId j := by
  rw [chanId, chanId, serial_after_eq, serial_after_eq]
  omega

theorem chanId_distinct_before_wraparound_witness : chanId 1 ≠ chanId 2 :=
  chanId_distinct_before_wraparound 1 2 (by decide) (by decide) (by decide)

/-- C6: whenever the user handler returns failure, the reply published by
the serve loop carries the error type tag, and the client-side `Response`
decoded from that reply satisfies `ok() = false`, whatever response state
(in particular, whatever body) the handler produced. -/
theorem listen_failure_forces_error_tag
    (callback : QueryInterface → QueryInterface × Bool)
    (request : QueryInterface) (h : (callback request).2 = false) :
    (listenReply callback request).type = QUERY_ERROR ∧
    Response.ok (clientResponseProps (listenReply callback request)) =
      false := by
  simp [listenReply, h, QueryInterface.set_type, clientResponseProps,
    Response.ok, QUERY_ERROR, MESSAGE_TYPE_ERROR]

theorem listen_failure_forces_error_tag_witness :
    (listenReply (fun _ => (⟨0, QUERY_RESPONSE, "some body"⟩, false))
      ⟨1, "request", "x"⟩).type = QUERY_ERROR ∧
    Response.ok (clientResponseProps
      (listenReply (fun _ => (⟨0, QUERY_RESPONSE, "some body"⟩, false))
        ⟨1, "request", "x"⟩)) = false :=
  listen_failure_forces_error_tag
    (fun _ => (⟨0, QUERY_RESPONSE, "some body"⟩, false))
    ⟨1, "request", "x"⟩ rfl

/-- C7: the spec says `qos(prefetch_size, prefetch_count, global)` forwards
`prefetch_size` as the transport's prefetch-size limit and `prefetch_count`
as its prefetch-count limit.  Evaluating the call with `prefetch_size = 1`,
`prefetch_count = 2` shows the transport receives prefetch-size 2 and
prefetch-count 1: the code passes the two limits to `amqp_basic_qos` in
swapped positions. -/
theorem qos_swaps_prefetch_arguments :
    Channel.qosArgs 7 1 2 false =
      { channel := 7, prefetch_size := 2, prefetch_count := 1,
        globalFlag := false } := by
  rfl

/-- C8: `ack` and `nack` fail (with the `ProtocolError`-style exception
raised by `die_on_error`) exactly when the transport status is negative, and
otherwise return the raw status code unchanged. -/
theorem ack_nack_error_iff_negative_status (delivery_tag : Nat)
    (multiple requeue : Bool) (status : Int) :
    ((∃ e, Channel.ack delivery_tag multiple status = .error e) ↔
      status < 0) ∧
    (0 ≤ status →
      Channel.ack delivery_tag multiple status = .ok status) ∧
    ((∃ e, Channel.nack delivery_tag multiple requeue status = .error e) ↔
      status < 0) ∧
    (0 ≤ status →
      Channel.nack delivery_tag multiple requeue status = .ok status) := by
  by_cases h : status < 0 <;>
    simp [Channel.ack, Channel.nack, die_on_error, h]

theorem ack_nack_error_iff_negative_status_witness :
    Channel.ack 1 false 5 = .ok 5 ∧ Channel.nack 2 true true 7 = .ok 7 :=
  ⟨(ack_nack_error_iff_negative_status 1 false true 5).2.1 (by decide),
   (ack_nack_error_iff_negative_status 2 true true 7).2.2.2 (by decide)⟩

/-- C9: a dispatch iteration polls the transport only when the channel
registry is non-empty — an iteration performs no transport access (`idle`)
exactly when the registry is empty, and a run of any number of iterations
with an empty registry consumes no poll results at all. -/
theorem dispatch_polls_only_when_registry_nonempty :
    (∀ (pool : Pool) (poll : PollResult),
      dispatchStep pool poll = .idle ↔ pool = []) ∧
    (∀ (n : Nat) (polls : List PollResult),
      dispatchRun n [] polls = ([], polls)) := by
  constructor
  · intro pool poll
    cases pool with
    | nil => simp [dispatchStep]
    | cons kv rest =>
      simp only [dispatchStep, List.isEmpty_cons, Bool.false_eq_true,
        if_false]
      cases poll with
      | notNormal => simp
      | normal env =>
        rcases hm : mapIndex (kv :: rest) env.channel with ⟨p1, v⟩
        cases v <;> simp [hm]
  · intro n
    induction n with
    | zero => intro polls; rfl
    | succ n ih => intro polls; simpa [dispatchRun] using ih polls

/-- C10: a `Response` whose properties carry no type tag at all satisfies
`ok() = true` — the empty optional compares unequal to the error tag, so an
untyped reply is classified as success. -/
theorem response_ok_of_unset_type (properties : AmqpProperties)
    (h : properties.type = none) : Response.ok properties = true := by
  simp [Response.ok, h]

theorem response_ok_of_unset_type_witness :
    Response.ok { type := none } = true :=
  response_ok_of_unset_type { type := none } rfl
